import Mathlib

/-!
Shallow embedding of the branch-messaging-app backend (FastAPI + SQLAlchemy),
covering the endpoints that the verified claims are about:

* `assign_conversation`   (src/backend/app/api/conversations.py, lines 274-325)
* `release_conversation`  (src/backend/app/api/conversations.py, lines 328-363)
* `send_agent_message`    (src/backend/app/api/conversations.py, lines 182-247)
* `receive_external_message` (src/backend/app/api/external.py, lines 14-139)
* the websocket control-frame dispatch loop (src/backend/app/api/websocket.py)

Database rows become Lean structures, the session becomes an explicit `DB`
value, `HTTPException` raises become `Except.error` results (a raise happens
before any mutation is committed, so an error result carries no state change),
and every `manager.broadcast_*` call is recorded as an `Event` in the returned
event list.  Timestamps are modelled as `Nat` ticks supplied by the caller
(`datetime.utcnow()` is an external input).
-/

/-- Python enum `MessagePriority` (models.py lines 8-12). -/
inductive MessagePriority where
  | LOW
  | MEDIUM
  | HIGH
  | URGENT
deriving DecidableEq, Repr

/-- Python enum `MessageStatus` (models.py lines 15-19). -/
inductive MessageStatus where
  | OPEN
  | IN_PROGRESS
  | RESOLVED
  | CLOSED
deriving DecidableEq, Repr

/-- Row of table `agents` (models.py), restricted to the columns the verified
endpoints read (`id`, `name`). -/
structure Agent where
  id : Nat
  name : String
deriving DecidableEq, Repr

/-- Row of table `customers` (models.py), restricted to the columns the
verified endpoints touch. -/
structure Customer where
  id : Nat
  name : String
  email : String
  last_activity : Nat
deriving DecidableEq, Repr

/-- Row of table `conversations` (models.py lines 54-68). -/
structure Conversation where
  id : Nat
  customer_id : Nat
  agent_id : Option Nat
  status : MessageStatus
  priority : MessagePriority
  subject : String
  updated_at : Nat
deriving DecidableEq, Repr

/-- Row of table `messages` (models.py lines 71-86). -/
structure Message where
  id : Nat
  conversation_id : Nat
  customer_id : Option Nat
  agent_id : Option Nat
  content : String
  is_from_customer : Bool
  priority : MessagePriority
deriving DecidableEq, Repr

/-- The database session state: the tables the verified endpoints touch plus
the autoincrement counters for the primary keys handed out on insert. -/
structure DB where
  agents : List Agent
  customers : List Customer
  conversations : List Conversation
  messages : List Message
  nextConversationId : Nat
  nextMessageId : Nat
deriving DecidableEq, Repr

/-- Events pushed through the websocket connection manager.  Each constructor
is one `manager.broadcast_*` payload shape as built at its call site. -/
inductive Event where
  | newConversation (id customerId : Nat) (priority : MessagePriority)
      (status : MessageStatus) (subject : String)
  | newMessage (id conversationId : Nat) (isFromCustomer : Bool)
      (priority : MessagePriority) (content : String)
  | conversationUpdated (id : Nat) (agentId : Option Nat) (agentName : Option String)
deriving DecidableEq, Repr

/-- Embeds `select(Conversation).where(Conversation.id == conversation_id)` followed by
`scalar_one_or_none()` when ids are unique: first row with the given id. -/
def findConv (db : DB) (cid : Nat) : Option Conversation :=
  db.conversations.find? (fun c => c.id == cid)

/-- Embeds `select(Agent).where(Agent.id == agent_id)` followed by
`scalar_one_or_none()`: first row with the given id. -/
def findAgent (db : DB) (aid : Nat) : Option Agent :=
  db.agents.find? (fun a => a.id == aid)

/-- ORM mutation of the conversation row with the given id followed by
`db.commit()`: replace every row whose id matches. -/
def updateConv (db : DB) (cid : Nat) (f : Conversation → Conversation) : DB :=
  { db with conversations :=
      db.conversations.map (fun c => if c.id == cid then f c else c) }

/-- An `HTTPException(status_code, detail)` raised by an endpoint, or an
exception escaping from the SQLAlchemy layer (`MultipleResultsFound`, which
FastAPI surfaces as a 500). -/
inductive ApiErr where
  | http (status : Nat) (detail : String)
  | multipleResults
deriving DecidableEq, Repr

/- ------------------------------------------------------------------ -/
/- assign_conversation (conversations.py lines 274-325)                -/
/- ------------------------------------------------------------------ -/

/-- Line 292: `conversation.agent_id is not None and conversation.agent_id !=
agent_id and not force`. -/
def assignConflict (conv : Conversation) (aid : Nat) (force : Bool) : Bool :=
  (match conv.agent_id with
   | some a => a != aid
   | none => false) && !force

/-- Lines 294-298: look up the current owner's display name for the 409
detail, falling back to the literal "another agent". -/
def currentOwnerName (db : DB) (conv : Conversation) : String :=
  match conv.agent_id with
  | some a =>
    match findAgent db a with
    | some ag => ag.name
    | none => "another agent"
  | none => "another agent"

/-- The read-and-check phase of `assign_conversation` (lines 282-311): fetch
the conversation, reject with 409 if it is owned by a different agent and
`force` is not set, then fetch the claiming agent.  No state is written.  In
the running code each of these steps is a separate `await db.execute(...)`,
so other tasks may run between this phase and `assign_write`. -/
def assign_check (db : DB) (cid aid : Nat) (force : Bool) :
    Except ApiErr (Conversation × Agent) :=
  match findConv db cid with
  | none => .error (.http 404 "Conversation not found")
  | some conv =>
    if assignConflict conv aid force then
      .error (.http 409 ("This conversation is already assigned to "
        ++ currentOwnerName db conv ++ ". Use force=true to reassign."))
    else
      match findAgent db aid with
      | none => .error (.http 404 "Agent not found")
      | some ag => .ok (conv, ag)

/-- The write phase of `assign_conversation` (lines 313-323): unconditionally
set `agent_id` and `updated_at` on the conversation row, commit, and broadcast
`ConversationUpdated`.  Nothing here re-checks the owner read in
`assign_check`. -/
def assign_write (db : DB) (cid aid now : Nat) (agName : String) :
    DB × List Event :=
  (updateConv db cid (fun c => { c with agent_id := some aid, updated_at := now }),
   [Event.conversationUpdated cid (some aid) (some agName)])

/-- Result of a successful `assign_conversation` call: the committed state,
the broadcasts performed, the JSON body
`{"success": True, "agent_id": ..., "agent_name": ...}` and the conversation
row as committed. -/
structure AssignResult where
  db : DB
  events : List Event
  agent_id : Nat
  agent_name : String
  conversation : Conversation
deriving DecidableEq, Repr

/-- Endpoint `assign_conversation` (lines 274-325) run without interleaving: the check
phase followed immediately by the write phase on the same state. -/
def assign_conversation (db : DB) (cid aid : Nat) (force : Bool) (now : Nat) :
    Except ApiErr AssignResult :=
  match assign_check db cid aid force with
  | .error e => .error e
  | .ok (conv, ag) =>
    let (db', evs) := assign_write db cid aid now ag.name
    .ok { db := db', events := evs, agent_id := aid, agent_name := ag.name,
          conversation := { conv with agent_id := some aid, updated_at := now } }

/-- The database state after an endpoint call: unchanged when the call raised
(the raise happens before any mutation is committed). -/
def dbAfterAssign (db : DB) : Except ApiErr AssignResult → DB
  | .error _ => db
  | .ok r => r.db

/-- The broadcasts performed by an `assign_conversation` call (none when the
call raised). -/
def assignEvents : Except ApiErr AssignResult → List Event
  | .error _ => []
  | .ok r => r.events

/- ------------------------------------------------------------------ -/
/- release_conversation (conversations.py lines 328-363)               -/
/- ------------------------------------------------------------------ -/

/-- Result of a successful `release_conversation` call: committed state,
broadcasts, and the conversation row as committed. -/
structure ReleaseResult where
  db : DB
  events : List Event
  conversation : Conversation
deriving DecidableEq, Repr

/-- Endpoint `release_conversation` (lines 328-363): 404 if the conversation is
missing, 403 unless the requesting agent is the current owner
(line 345: `conversation.agent_id != agent_id`), otherwise set `agent_id`
to NULL, bump `updated_at`, commit, broadcast `ConversationUpdated`. -/
def release_conversation (db : DB) (cid aid now : Nat) :
    Except ApiErr ReleaseResult :=
  match findConv db cid with
  | none => .error (.http 404 "Conversation not found")
  | some conv =>
    if conv.agent_id == some aid then
      let conv' := { conv with agent_id := none, updated_at := now }
      .ok { db := updateConv db cid (fun c => { c with agent_id := none, updated_at := now }),
            events := [Event.conversationUpdated cid none none],
            conversation := conv' }
    else
      .error (.http 403 "You can only release conversations assigned to you")

/-- The database state after a `release_conversation` call (unchanged when the
call raised before mutating). -/
def dbAfterRelease (db : DB) : Except ApiErr ReleaseResult → DB
  | .error _ => db
  | .ok r => r.db

/- ------------------------------------------------------------------ -/
/- send_agent_message (conversations.py lines 182-247)                 -/
/- ------------------------------------------------------------------ -/

/-- Line 201: `conversation.agent_id is not None and conversation.agent_id !=
message.agent_id`. -/
def ownedByOther (conv : Conversation) (senderId : Nat) : Bool :=
  match conv.agent_id with
  | some a => a != senderId
  | none => false

/-- Result of a successful `send_agent_message` call: committed state,
broadcasts, the stored message row, and the conversation row as committed. -/
structure SendResult where
  db : DB
  events : List Event
  message : Message
  conversation : Conversation
deriving DecidableEq, Repr

/-- Endpoint `send_agent_message` (lines 182-247): 404 if the conversation is missing;
403 if it is assigned to a different agent (before anything is stored); 404 if
the sending agent does not exist; otherwise store the message with
`is_from_customer=False` and `priority=MessagePriority.MEDIUM` (lines
216-222), bump `updated_at`, claim the conversation if unowned (lines
227-228), move OPEN to IN_PROGRESS (lines 229-230), commit and broadcast
`NewMessage`. -/
def send_agent_message (db : DB) (cid senderId : Nat) (content : String)
    (now : Nat) : Except ApiErr SendResult :=
  match findConv db cid with
  | none => .error (.http 404 "Conversation not found")
  | some conv =>
    if ownedByOther conv senderId then
      .error (.http 403
        "This conversation is assigned to another agent. You cannot send messages here.")
    else
      match findAgent db senderId with
      | none => .error (.http 404 "Agent not found")
      | some _ =>
        let msg : Message :=
          { id := db.nextMessageId, conversation_id := cid, customer_id := none,
            agent_id := some senderId, content := content,
            is_from_customer := false, priority := .MEDIUM }
        let conv' : Conversation :=
          { conv with
            updated_at := now,
            agent_id := if conv.agent_id == none then some senderId else conv.agent_id,
            status := if conv.status == .OPEN then .IN_PROGRESS else conv.status }
        let db1 := updateConv db cid (fun c =>
          { c with
            updated_at := now,
            agent_id := if c.agent_id == none then some senderId else c.agent_id,
            status := if c.status == .OPEN then .IN_PROGRESS else c.status })
        let db2 := { db1 with messages := db1.messages ++ [msg],
                              nextMessageId := db1.nextMessageId + 1 }
        .ok { db := db2,
              events := [Event.newMessage msg.id cid false msg.priority content],
              message := msg, conversation := conv' }

/-- The database state after a `send_agent_message` call (unchanged when the
call raised before mutating). -/
def dbAfterSend (db : DB) : Except ApiErr SendResult → DB
  | .error _ => db
  | .ok r => r.db

/- ------------------------------------------------------------------ -/
/- receive_external_message (external.py lines 14-139)                 -/
/- ------------------------------------------------------------------ -/

/-- The `priority_order` dict of external.py lines 93-98 (LOW 0, MEDIUM 1,
HIGH 2, URGENT 3); every enum member is a key, so the `.get(_, 0)` default is
never taken. -/
def priority_order : MessagePriority → Nat
  | .LOW => 0
  | .MEDIUM => 1
  | .HIGH => 2
  | .URGENT => 3

/-- Embeds `Conversation.status.in_([MessageStatus.OPEN, MessageStatus.IN_PROGRESS])`
(external.py line 63). -/
def statusOpenOrInProgress (s : MessageStatus) : Bool :=
  s == .OPEN || s == .IN_PROGRESS

/-- Insert one conversation into a list already sorted by `updated_at`
descending, keeping it sorted (stable). -/
def insertByUpdatedDesc (c : Conversation) : List Conversation → List Conversation
  | [] => [c]
  | x :: xs =>
    if c.updated_at ≤ x.updated_at then x :: insertByUpdatedDesc c xs
    else c :: x :: xs

/-- Embeds `order_by(Conversation.updated_at.desc())` (external.py line 64): sort by
`updated_at` descending. -/
def sortByUpdatedDesc : List Conversation → List Conversation
  | [] => []
  | c :: cs => insertByUpdatedDesc c (sortByUpdatedDesc cs)

/-- The row set of the conversation query of external.py lines 61-64: this
customer's conversations in status OPEN or IN_PROGRESS, most recently updated
first. -/
def openConvsFor (db : DB) (customerId : Nat) : List Conversation :=
  sortByUpdatedDesc (db.conversations.filter
    (fun c => c.customer_id == customerId && statusOpenOrInProgress c.status))

/-- SQLAlchemy `Result.scalar_one_or_none()`: `none` on zero rows, the row on
exactly one, and a raised `MultipleResultsFound` on two or more rows. -/
def scalar_one_or_none : List α → Except ApiErr (Option α)
  | [] => .ok none
  | [x] => .ok (some x)
  | _ => .error .multipleResults

/-- Result of a successful `receive_external_message` call: committed state,
broadcasts, the conversation row as committed, and the stored message row. -/
structure ExtResult where
  db : DB
  events : List Event
  conversation : Conversation
  message : Message
deriving DecidableEq, Repr

/-- Embeds `customer.last_activity = datetime.utcnow()` (external.py line 114). -/
def touchCustomer (db : DB) (customerId now : Nat) : DB :=
  { db with customers := db.customers.map (fun cu =>
      if cu.id == customerId then { cu with last_activity := now } else cu) }

/-- The tail of `receive_external_message` shared by both branches (external.py
lines 102-130): store the customer message with the classified priority,
set `conversation.updated_at` and `customer.last_activity`, commit, and
broadcast `NewMessage`.  `conv` carries the branch's in-memory updates
(priority escalation, or the freshly inserted row) and is committed here. -/
def finishCustomerMessage (db : DB) (conv : Conversation) (evs : List Event)
    (customerId : Nat) (content : String) (classified : MessagePriority)
    (now : Nat) : Except ApiErr ExtResult :=
  let msg : Message :=
    { id := db.nextMessageId, conversation_id := conv.id,
      customer_id := some customerId, agent_id := none, content := content,
      is_from_customer := true, priority := classified }
  let conv' := { conv with updated_at := now }
  let db1 := updateConv db conv.id (fun _ => conv')
  let db2 := touchCustomer
    { db1 with messages := db1.messages ++ [msg],
               nextMessageId := db1.nextMessageId + 1 } customerId now
  .ok { db := db2,
        events := evs ++ [Event.newMessage msg.id conv.id true classified content],
        conversation := conv', message := msg }

/-- Endpoint `receive_external_message` (external.py lines 14-139) after the customer
has been resolved to `customerId` and the classifier has returned
`classified` (the classifier, `detect_priority`, lives in the services module
and is a pure function of the text, so its result is taken as an input
here).  Lines 61-67 query this customer's OPEN/IN_PROGRESS conversations
newest first and call `scalar_one_or_none()`.  If none exists, lines 69-90
create a conversation in status OPEN with the classified priority and a
subject truncated to 100 characters, and broadcast `NewConversation`.  If one
exists, lines 91-100 raise its priority when the classified level is strictly
greater.  Both branches then run `finishCustomerMessage`. -/
def receive_external_message (db : DB) (customerId : Nat) (content : String)
    (classified : MessagePriority) (now : Nat) : Except ApiErr ExtResult :=
  match scalar_one_or_none (openConvsFor db customerId) with
  | .error e => .error e
  | .ok none =>
    let conv : Conversation :=
      { id := db.nextConversationId, customer_id := customerId,
        agent_id := none, status := .OPEN, priority := classified,
        subject := if content.length > 100 then content.take 100 else content,
        updated_at := now }
    let db1 := { db with conversations := db.conversations ++ [conv],
                         nextConversationId := db.nextConversationId + 1 }
    finishCustomerMessage db1 conv
      [Event.newConversation conv.id customerId classified .OPEN conv.subject]
      customerId content classified now
  | .ok (some conv) =>
    let newPrio :=
      if priority_order conv.priority < priority_order classified then classified
      else conv.priority
    finishCustomerMessage db { conv with priority := newPrio } []
      customerId content classified now

/- ------------------------------------------------------------------ -/
/- websocket control-frame dispatch (websocket.py lines 26-67)         -/
/- ------------------------------------------------------------------ -/

/-- Presence and viewing registry state held by the connection manager: the
set of (agentId, conversationId) viewing pairs. -/
structure WsState where
  viewing : List (Nat × Nat)
deriving DecidableEq, Repr

/-- Payloads sent back over a single websocket connection by the dispatch
loop. -/
inductive WsEvent where
  | pong
  | errorEvent (message : String)
deriving DecidableEq, Repr

/-- One outbound delivery requested by the dispatch loop.  `personal conn ev`
records a `manager.send_personal_message(ev, websocket)` call addressed to
the one connection `conn` the frame arrived on; `typingToViewers` records a
`manager.notify_agent_typing(...)` call, which the spec scopes to the agents
currently viewing that conversation. -/
inductive WsSend where
  | personal (conn : Nat) (ev : WsEvent)
  | typingToViewers (conversationId agentId : Nat) (isTyping : Bool)
deriving DecidableEq, Repr

/-- Modelled from the spec: `manager.set_agent_viewing` is in the services
module, which is not in the source tree; section 4.2 specifies
`setViewing(agentId, conversationId)` as adding the pair to the agent's
viewing set. -/
def set_agent_viewing (st : WsState) (agentId conversationId : Nat) : WsState :=
  if st.viewing.contains (agentId, conversationId) then st
  else { st with viewing := st.viewing ++ [(agentId, conversationId)] }

/-- Modelled from the spec: `manager.remove_agent_viewing` is in the services
module, which is not in the source tree; section 4.2 specifies
`clearViewing(agentId, conversationId)` as removing the pair, a no-op when
absent. -/
def remove_agent_viewing (st : WsState) (agentId conversationId : Nat) : WsState :=
  { st with viewing := st.viewing.filter (fun p => p != (agentId, conversationId)) }

/-- One inbound websocket frame as seen after `json.loads` (websocket.py line
31): `invalid` when `json.loads` raises `JSONDecodeError`, otherwise the
parsed object's `type` field (absent fields read as `None` via `.get`) and
the `data` object's `conversation_id` and `is_typing` fields
(`is_typing` defaults to `False`). -/
inductive RawFrame where
  | invalid (text : String)
  | ctrl (type? : Option String) (conversationId? : Option Nat) (isTyping : Bool)
deriving DecidableEq, Repr

/-- Python truthiness of an optional integer (`if conversation_id and
agent_id:` treats both `None` and `0` as false). -/
def pyTruthyNat : Option Nat → Bool
  | none => false
  | some n => n != 0

/-- The body of the websocket receive loop (websocket.py lines 30-67) for one
frame: a `JSONDecodeError` is answered with an `error` event to the sender's
own connection and the loop continues; `ping` is answered with `pong`;
`typing` relays a typing indicator when both `conversation_id` and the
connection's `agent_id` are truthy; `viewing` and `stop_viewing` mutate the
viewing registry; any other `type` value falls through all branches and is
ignored.  The function is total: no frame aborts the connection. -/
def handle_frame (st : WsState) (conn : Nat) (agentId : Option Nat) :
    RawFrame → WsState × List WsSend
  | .invalid _ => (st, [WsSend.personal conn (WsEvent.errorEvent "Invalid JSON format")])
  | .ctrl ty cid? isTyping =>
    if ty == some "ping" then
      (st, [WsSend.personal conn WsEvent.pong])
    else if ty == some "typing" then
      match cid?, agentId with
      | some c, some a =>
        if pyTruthyNat (some c) && pyTruthyNat (some a) then
          (st, [WsSend.typingToViewers c a isTyping])
        else (st, [])
      | _, _ => (st, [])
    else if ty == some "viewing" then
      match cid?, agentId with
      | some c, some a =>
        if pyTruthyNat (some c) && pyTruthyNat (some a) then
          (set_agent_viewing st a c, [])
        else (st, [])
      | _, _ => (st, [])
    else if ty == some "stop_viewing" then
      match cid?, agentId with
      | some c, some a =>
        if pyTruthyNat (some c) && pyTruthyNat (some a) then
          (remove_agent_viewing st a c, [])
        else (st, [])
      | _, _ => (st, [])
    else
      (st, [])

/- ------------------------------------------------------------------ -/
/- Concrete fixture states used by the concrete theorems and witnesses -/
/- ------------------------------------------------------------------ -/

/-- Fixture agent with id 1. -/
def agentAlice : Agent := { id := 1, name := "Alice" }

/-- Fixture agent with id 2. -/
def agentBob : Agent := { id := 2, name := "Bob" }

/-- Fixture customer with id 7. -/
def custCarol : Customer := { id := 7, name := "Carol", email := "carol@x", last_activity := 0 }

/-- Fixture conversation 1: unowned, OPEN, MEDIUM. -/
def convUnowned : Conversation :=
  { id := 1, customer_id := 7, agent_id := none, status := .OPEN,
    priority := .MEDIUM, subject := "s", updated_at := 0 }

/-- Fixture database holding only `convUnowned` and the two agents. -/
def dbUnowned : DB :=
  { agents := [agentAlice, agentBob], customers := [custCarol],
    conversations := [convUnowned], messages := [],
    nextConversationId := 2, nextMessageId := 1 }

/-- Fixture conversation 1 owned by agent 1 (state of `convUnowned` after
agent 1's first claim at tick 1). -/
def convOwnedByAlice : Conversation :=
  { id := 1, customer_id := 7, agent_id := some 1, status := .OPEN,
    priority := .MEDIUM, subject := "s", updated_at := 1 }

/-- Fixture database holding `convOwnedByAlice` and the two agents. -/
def dbOwnedByAlice : DB :=
  { agents := [agentAlice, agentBob], customers := [custCarol],
    conversations := [convOwnedByAlice], messages := [],
    nextConversationId := 2, nextMessageId := 1 }

/-- Fixture: first OPEN conversation of customer 7. -/
def convOpenA : Conversation :=
  { id := 1, customer_id := 7, agent_id := none, status := .OPEN,
    priority := .LOW, subject := "a", updated_at := 1 }

/-- Fixture: second OPEN conversation of customer 7, updated more recently. -/
def convOpenB : Conversation :=
  { id := 2, customer_id := 7, agent_id := none, status := .OPEN,
    priority := .LOW, subject := "b", updated_at := 2 }

/-- Fixture database where customer 7 has two conversations in status OPEN. -/
def dbTwoOpen : DB :=
  { agents := [agentAlice], customers := [custCarol],
    conversations := [convOpenA, convOpenB], messages := [],
    nextConversationId := 3, nextMessageId := 1 }

/-- Fixture: customer 7's only conversation, in status RESOLVED. -/
def convResolved : Conversation :=
  { id := 1, customer_id := 7, agent_id := none, status := .RESOLVED,
    priority := .MEDIUM, subject := "old", updated_at := 1 }

/-- Fixture database where customer 7's only conversation is RESOLVED. -/
def dbResolvedOnly : DB :=
  { agents := [agentAlice], customers := [custCarol],
    conversations := [convResolved], messages := [],
    nextConversationId := 2, nextMessageId := 1 }

/-- Fixture: customer 7's single OPEN conversation at priority MEDIUM. -/
def convOpenOne : Conversation :=
  { id := 1, customer_id := 7, agent_id := none, status := .OPEN,
    priority := .MEDIUM, subject := "a", updated_at := 1 }

/-- Fixture database where customer 7 has exactly one OPEN conversation. -/
def dbOneOpen : DB :=
  { agents := [agentAlice], customers := [custCarol],
    conversations := [convOpenOne], messages := [],
    nextConversationId := 2, nextMessageId := 1 }

/- ------------------------------------------------------------------ -/
/- Shared helper lemmas                                                -/
/- ------------------------------------------------------------------ -/

theorem findConv_mem {db : DB} {cid : Nat} {conv : Conversation}
    (h : findConv db cid = some conv) :
    conv ∈ db.conversations ∧ conv.id = cid := by
  unfold findConv at h
  refine ⟨List.mem_of_find?_eq_some h, ?_⟩
  simpa using List.find?_some h

theorem mem_updateConv {db : DB} {cid : Nat} {f : Conversation → Conversation}
    {conv : Conversation} (hm : conv ∈ db.conversations) (hid : conv.id = cid) :
    f conv ∈ (updateConv db cid f).conversations := by
  unfold updateConv
  have he : f conv = (fun c => if c.id == cid then f c else c) conv := by
    simp [hid]
  rw [he]
  exact List.mem_map_of_mem _ hm

theorem mem_updateConv_other {db : DB} {cid : Nat} {f : Conversation → Conversation}
    {c : Conversation} (hm : c ∈ db.conversations) (hne : c.id ≠ cid) :
    c ∈ (updateConv db cid f).conversations := by
  unfold updateConv
  have he : c = (fun x => if x.id == cid then f x else x) c := by
    simp [hne]
  rw [he]
  exact List.mem_map_of_mem _ hm

theorem mem_insertByUpdatedDesc {c x : Conversation} {l : List Conversation} :
    x ∈ insertByUpdatedDesc c l ↔ x = c ∨ x ∈ l := by
  induction l with
  | nil => simp [insertByUpdatedDesc]
  | cons y ys ih =>
    by_cases h : c.updated_at ≤ y.updated_at
    · simp only [insertByUpdatedDesc, if_pos h, List.mem_cons, ih]
      tauto
    · simp only [insertByUpdatedDesc, if_neg h, List.mem_cons]

theorem mem_sortByUpdatedDesc {x : Conversation} {l : List Conversation} :
    x ∈ sortByUpdatedDesc l ↔ x ∈ l := by
  induction l with
  | nil => simp [sortByUpdatedDesc]
  | cons y ys ih =>
    simp [sortByUpdatedDesc, mem_insertByUpdatedDesc, ih]

theorem openConvsFor_single_mem {db : DB} {customerId : Nat} {c : Conversation}
    (h : openConvsFor db customerId = [c]) : c ∈ db.conversations := by
  have hc : c ∈ openConvsFor db customerId := by
    rw [h]; exact List.mem_singleton.mpr rfl
  unfold openConvsFor at hc
  rw [mem_sortByUpdatedDesc] at hc
  exact List.mem_of_mem_filter hc

/- ------------------------------------------------------------------ -/
/- Claim theorems                                                      -/
/- ------------------------------------------------------------------ -/

/-- C1: `assign_conversation` performs the owner check (`assign_check`, a
`SELECT` followed by a Python-side test) and the owner write (`assign_write`,
an unconditional `UPDATE`) as separate steps with `await` suspension points
between them, not as one atomic conditional update.  In the interleaving
where agents 1 and 2 both run the check phase against the same unowned
conversation before either write phase runs, both checks pass (neither
caller receives the 409 Conflict), both writes then go through, and the
conversation ends owned by whichever agent wrote last — the first write is
silently overwritten.  This contradicts the claimed exactly-one-succeeds
behavior. -/
theorem assign_check_then_set_race :
    assign_check dbUnowned 1 1 false = Except.ok (convUnowned, agentAlice)
    ∧ assign_check dbUnowned 1 2 false = Except.ok (convUnowned, agentBob)
    ∧ findConv (assign_write (assign_write dbUnowned 1 1 5 agentAlice.name).1
          1 2 6 agentBob.name).1 1
        = some { convUnowned with agent_id := some 2, updated_at := 6 } :=
  ⟨rfl, rfl, rfl⟩

/-- C6 counterexample: a claim by the agent who already owns the conversation
is not broadcast-free.  Agent 1 claims the unowned conversation (one
`ConversationUpdated` broadcast), and the identical second self-claim on the
resulting state broadcasts `ConversationUpdated` again, refuting "no
duplicate ConversationUpdated broadcast side effect beyond the first
claim". -/
theorem self_claim_rebroadcasts :
    assignEvents (assign_conversation dbUnowned 1 1 false 1)
      = [Event.conversationUpdated 1 (some 1) (some "Alice")]
    ∧ dbAfterAssign dbUnowned (assign_conversation dbUnowned 1 1 false 1)
      = dbOwnedByAlice
    ∧ assignEvents (assign_conversation dbOwnedByAlice 1 1 false 2)
      = [Event.conversationUpdated 1 (some 1) (some "Alice")] :=
  ⟨rfl, rfl, rfl⟩

/-- C6 (amended): for every conversation already owned by agent `a`, a claim
by `a` itself returns success rather than Conflict and leaves the ownership
state identical, but it emits exactly one `ConversationUpdated` broadcast —
the same broadcast every successful claim emits; the no-op case is not
detected and the broadcast is not suppressed. -/
theorem self_claim_noop_success (db : DB) (cid a : Nat) (force : Bool) (now : Nat)
    (conv : Conversation) (ag : Agent)
    (hconv : findConv db cid = some conv) (hown : conv.agent_id = some a)
    (hag : findAgent db a = some ag) :
    ∃ r, assign_conversation db cid a force now = Except.ok r
      ∧ r.conversation.agent_id = conv.agent_id
      ∧ r.conversation ∈ r.db.conversations
      ∧ r.events = [Event.conversationUpdated cid (some a) (some ag.name)] := by
  obtain ⟨hm, hid⟩ := findConv_mem hconv
  have hconflict : assignConflict conv a force = false := by
    simp [assignConflict, hown]
  refine ⟨{ db := (assign_write db cid a now ag.name).1,
            events := [Event.conversationUpdated cid (some a) (some ag.name)],
            agent_id := a, agent_name := ag.name,
            conversation := { conv with agent_id := some a, updated_at := now } },
          ?_, by simp [hown], ?_, rfl⟩
  · simp [assign_conversation, assign_check, hconv, hconflict, hag, assign_write]
  · exact mem_updateConv hm hid

/-- C6 (amended) witness: the amended statement at the concrete fixture where
conversation 1 of `dbOwnedByAlice` is owned by agent 1. -/
theorem self_claim_noop_success_witness :
    ∃ r, assign_conversation dbOwnedByAlice 1 1 false 2 = Except.ok r
      ∧ r.conversation.agent_id = convOwnedByAlice.agent_id
      ∧ r.conversation ∈ r.db.conversations
      ∧ r.events = [Event.conversationUpdated 1 (some 1) (some agentAlice.name)] :=
  self_claim_noop_success dbOwnedByAlice 1 1 false 2 convOwnedByAlice agentAlice
    rfl rfl rfl

/-- C7: when a customer has two conversations in status OPEN, the conversation
query of `receive_external_message` does order them most-recently-updated
first, but `scalar_one_or_none()` then raises `MultipleResultsFound` on the
two-row result, so the operation fails instead of attaching the message to
the most-recently-updated conversation. -/
theorem two_open_conversations_raise :
    openConvsFor dbTwoOpen 7 = [convOpenB, convOpenA]
    ∧ receive_external_message dbTwoOpen 7 "help" MessagePriority.LOW 5
        = Except.error ApiErr.multipleResults :=
  ⟨rfl, rfl⟩

/-- C8 counterexample: customer 7's only conversation (id 1) is RESOLVED; a
new inbound customer message does not reopen it.  The call leaves
conversation 1 at RESOLVED and creates a fresh conversation 2 in status
OPEN. -/
theorem resolved_not_reopened :
    (receive_external_message dbResolvedOnly 7 "hi" MessagePriority.MEDIUM 5).toOption.map
        (fun r => r.db.conversations.map (fun c => (c.id, c.status)))
      = some [(1, MessageStatus.RESOLVED), (2, MessageStatus.OPEN)] :=
  rfl

/-- C8 (amended): for every customer with no conversation in status OPEN or
IN_PROGRESS (in particular one whose most recent conversation is RESOLVED),
a new inbound customer message creates a fresh conversation in status OPEN
with the classified priority; existing conversation rows with other ids —
including the RESOLVED one, which is not reopened — are left in place
unchanged. -/
theorem no_open_conversation_creates_new (db : DB) (customerId : Nat)
    (content : String) (classified : MessagePriority) (now : Nat)
    (h : openConvsFor db customerId = []) :
    ∃ r, receive_external_message db customerId content classified now = Except.ok r
      ∧ r.conversation.id = db.nextConversationId
      ∧ r.conversation.status = .OPEN
      ∧ r.conversation.priority = classified
      ∧ r.conversation ∈ r.db.conversations
      ∧ ∀ c ∈ db.conversations, c.id ≠ db.nextConversationId →
          c ∈ r.db.conversations := by
  unfold receive_external_message
  rw [h]
  refine ⟨_, rfl, rfl, rfl, rfl, ?_, ?_⟩
  · exact mem_updateConv (List.mem_append_right _ (List.mem_singleton.mpr rfl)) rfl
  · intro c hc hne
    exact mem_updateConv_other (List.mem_append_left _ hc) hne

/-- C8 (amended) witness: the amended statement at the concrete fixture where
customer 7's only conversation is RESOLVED. -/
theorem no_open_conversation_creates_new_witness :
    ∃ r, receive_external_message dbResolvedOnly 7 "hi" MessagePriority.MEDIUM 5
        = Except.ok r
      ∧ r.conversation.id = dbResolvedOnly.nextConversationId
      ∧ r.conversation.status = .OPEN
      ∧ r.conversation.priority = MessagePriority.MEDIUM
      ∧ r.conversation ∈ r.db.conversations
      ∧ ∀ c ∈ dbResolvedOnly.conversations, c.id ≠ dbResolvedOnly.nextConversationId →
          c ∈ r.db.conversations :=
  no_open_conversation_creates_new dbResolvedOnly 7 "hi" MessagePriority.MEDIUM 5 rfl

/-- C4: for a conversation owned by agent `a`, a claim by a different agent
`b` without force is rejected with a 409 whose detail surfaces the current
owner's display name, and the database is unchanged; with force=true the
claim succeeds and ownership transfers to `b`; and a claim on an unowned
conversation succeeds for any value of force. -/
theorem assign_conflict_and_force (db : DB) (cid b now : Nat)
    (conv : Conversation) (hconv : findConv db cid = some conv) :
    (∀ a curAg, conv.agent_id = some a → a ≠ b → findAgent db a = some curAg →
      assign_conversation db cid b false now
          = Except.error (ApiErr.http 409 ("This conversation is already assigned to "
              ++ curAg.name ++ ". Use force=true to reassign."))
        ∧ dbAfterAssign db (assign_conversation db cid b false now) = db)
    ∧ (∀ a agB, conv.agent_id = some a → findAgent db b = some agB →
      ∃ r, assign_conversation db cid b true now = Except.ok r
        ∧ r.conversation.agent_id = some b
        ∧ r.conversation ∈ r.db.conversations)
    ∧ (∀ force agB, conv.agent_id = none → findAgent db b = some agB →
      ∃ r, assign_conversation db cid b force now = Except.ok r
        ∧ r.conversation.agent_id = some b
        ∧ r.conversation ∈ r.db.conversations) := by
  obtain ⟨hm, hid⟩ := findConv_mem hconv
  refine ⟨?_, ?_, ?_⟩
  · intro a curAg ha hne hcur
    have hconflict : assignConflict conv b false = true := by
      simp [assignConflict, ha, hne]
    have hname : currentOwnerName db conv = curAg.name := by
      simp [currentOwnerName, ha, hcur]
    constructor
    · simp [assign_conversation, assign_check, hconv, hconflict, hname]
    · simp [dbAfterAssign, assign_conversation, assign_check, hconv, hconflict]
  · intro a agB ha hb
    have hconflict : assignConflict conv b true = false := by
      simp [assignConflict]
    refine ⟨{ db := (assign_write db cid b now agB.name).1,
              events := [Event.conversationUpdated cid (some b) (some agB.name)],
              agent_id := b, agent_name := agB.name,
              conversation := { conv with agent_id := some b, updated_at := now } },
            ?_, rfl, ?_⟩
    · simp [assign_conversation, assign_check, hconv, hconflict, hb, assign_write]
    · exact mem_updateConv hm hid
  · intro force agB ha hb
    have hconflict : assignConflict conv b force = false := by
      simp [assignConflict, ha]
    refine ⟨{ db := (assign_write db cid b now agB.name).1,
              events := [Event.conversationUpdated cid (some b) (some agB.name)],
              agent_id := b, agent_name := agB.name,
              conversation := { conv with agent_id := some b, updated_at := now } },
            ?_, rfl, ?_⟩
    · simp [assign_conversation, assign_check, hconv, hconflict, hb, assign_write]
    · exact mem_updateConv hm hid

/-- C4 witness: on the fixture where agent 1 owns conversation 1, agent 2's
claim without force is a 409 naming Alice and leaves the state unchanged,
and agent 2's claim with force succeeds and takes ownership. -/
theorem assign_conflict_and_force_witness :
    (assign_conversation dbOwnedByAlice 1 2 false 9
        = Except.error (ApiErr.http 409 ("This conversation is already assigned to "
            ++ agentAlice.name ++ ". Use force=true to reassign."))
      ∧ dbAfterAssign dbOwnedByAlice (assign_conversation dbOwnedByAlice 1 2 false 9)
          = dbOwnedByAlice)
    ∧ (∃ r, assign_conversation dbOwnedByAlice 1 2 true 9 = Except.ok r
        ∧ r.conversation.agent_id = some 2
        ∧ r.conversation ∈ r.db.conversations) :=
  ⟨(assign_conflict_and_force dbOwnedByAlice 1 2 9 convOwnedByAlice rfl).1
      1 agentAlice rfl (by decide) rfl,
   (assign_conflict_and_force dbOwnedByAlice 1 2 9 convOwnedByAlice rfl).2.1
      1 agentBob rfl rfl⟩

/-- C5: a release request by an agent who is not the current owner returns a
403 Forbidden and leaves the database (in particular `agent_id`) unchanged;
a release by the current owner succeeds, sets `agent_id` to None and leaves
the status unchanged. -/
theorem release_owner_only (db : DB) (cid aid now : Nat)
    (conv : Conversation) (hconv : findConv db cid = some conv) :
    (conv.agent_id ≠ some aid →
      release_conversation db cid aid now
          = Except.error (ApiErr.http 403 "You can only release conversations assigned to you")
        ∧ dbAfterRelease db (release_conversation db cid aid now) = db)
    ∧ (conv.agent_id = some aid →
      ∃ r, release_conversation db cid aid now = Except.ok r
        ∧ r.conversation.agent_id = none
        ∧ r.conversation.status = conv.status
        ∧ r.conversation ∈ r.db.conversations) := by
  obtain ⟨hm, hid⟩ := findConv_mem hconv
  constructor
  · intro hne
    have hcond : (conv.agent_id == some aid) = false := by
      simp [hne]
    constructor
    · simp [release_conversation, hconv, hcond]
    · simp [dbAfterRelease, release_conversation, hconv, hcond]
  · intro hown
    have hcond : (conv.agent_id == some aid) = true := by
      simp [hown]
    refine ⟨{ db := updateConv db cid (fun c => { c with agent_id := none, updated_at := now }),
              events := [Event.conversationUpdated cid none none],
              conversation := { conv with agent_id := none, updated_at := now } },
            ?_, rfl, rfl, ?_⟩
    · simp [release_conversation, hconv, hcond]
    · exact mem_updateConv hm hid

/-- C5 witness: on the fixture where agent 1 owns conversation 1, agent 2's
release is a 403 leaving the state unchanged, and agent 1's release succeeds
with `agent_id` cleared and the status kept. -/
theorem release_owner_only_witness :
    (release_conversation dbOwnedByAlice 1 2 9
        = Except.error (ApiErr.http 403 "You can only release conversations assigned to you")
      ∧ dbAfterRelease dbOwnedByAlice (release_conversation dbOwnedByAlice 1 2 9)
          = dbOwnedByAlice)
    ∧ (∃ r, release_conversation dbOwnedByAlice 1 1 9 = Except.ok r
        ∧ r.conversation.agent_id = none
        ∧ r.conversation.status = convOwnedByAlice.status
        ∧ r.conversation ∈ r.db.conversations) :=
  ⟨(release_owner_only dbOwnedByAlice 1 2 9 convOwnedByAlice rfl).1 (by decide),
   (release_owner_only dbOwnedByAlice 1 1 9 convOwnedByAlice rfl).2 rfl⟩

/-- C3: an agent message on a conversation owned by a different agent is
rejected with a caller-visible 403 and no message is stored; on a
conversation that is unowned or owned by the sender the message is
accepted and stored, an unowned conversation becomes owned by the sender,
and a conversation in status OPEN moves to IN_PROGRESS. -/
theorem agent_message_ownership_gate (db : DB) (cid sender : Nat)
    (content : String) (now : Nat) (conv : Conversation) (ag : Agent)
    (hconv : findConv db cid = some conv) (hag : findAgent db sender = some ag) :
    (∀ b, conv.agent_id = some b → b ≠ sender →
      send_agent_message db cid sender content now
          = Except.error (ApiErr.http 403
              "This conversation is assigned to another agent. You cannot send messages here.")
        ∧ (dbAfterSend db (send_agent_message db cid sender content now)).messages
            = db.messages)
    ∧ ((conv.agent_id = none ∨ conv.agent_id = some sender) →
      ∃ r, send_agent_message db cid sender content now = Except.ok r
        ∧ r.message ∈ r.db.messages
        ∧ r.message.is_from_customer = false
        ∧ (conv.agent_id = none → r.conversation.agent_id = some sender)
        ∧ (conv.agent_id = some sender → r.conversation.agent_id = some sender)
        ∧ (conv.status = .OPEN → r.conversation.status = .IN_PROGRESS)
        ∧ r.conversation ∈ r.db.conversations) := by
  obtain ⟨hm, hid⟩ := findConv_mem hconv
  constructor
  · intro b hb hne
    have hother : ownedByOther conv sender = true := by
      simp [ownedByOther, hb, hne]
    constructor
    · simp [send_agent_message, hconv, hother]
    · simp [dbAfterSend, send_agent_message, hconv, hother]
  · intro hcase
    have hother : ownedByOther conv sender = false := by
      rcases hcase with h | h <;> simp [ownedByOther, h]
    refine ⟨_, by simp [send_agent_message, hconv, hother, hag]; rfl, ?_, rfl, ?_, ?_, ?_, ?_⟩
    · exact List.mem_append_right _ (List.mem_singleton.mpr rfl)
    · intro h
      simp [h]
    · intro h
      simp [h]
    · intro h
      simp [h]
    · exact mem_updateConv hm hid

/-- C3 witness: on the fixture with the unowned OPEN conversation 1, agent
1's message is accepted, claims the conversation, and moves it to
IN_PROGRESS; then on the resulting owned fixture agent 2's message attempt
is a 403 with no message stored. -/
theorem agent_message_ownership_gate_witness :
    (∃ r, send_agent_message dbUnowned 1 1 "hello" 9 = Except.ok r
      ∧ r.message ∈ r.db.messages
      ∧ r.message.is_from_customer = false
      ∧ (convUnowned.agent_id = none → r.conversation.agent_id = some 1)
      ∧ (convUnowned.agent_id = some 1 → r.conversation.agent_id = some 1)
      ∧ (convUnowned.status = .OPEN → r.conversation.status = .IN_PROGRESS)
      ∧ r.conversation ∈ r.db.conversations)
    ∧ (send_agent_message dbOwnedByAlice 1 2 "hi" 9
        = Except.error (ApiErr.http 403
            "This conversation is assigned to another agent. You cannot send messages here.")
      ∧ (dbAfterSend dbOwnedByAlice (send_agent_message dbOwnedByAlice 1 2 "hi" 9)).messages
          = dbOwnedByAlice.messages) :=
  ⟨(agent_message_ownership_gate dbUnowned 1 1 "hello" 9 convUnowned agentAlice
      rfl rfl).2 (Or.inl rfl),
   (agent_message_ownership_gate dbOwnedByAlice 1 2 "hi" 9 convOwnedByAlice agentBob
      rfl rfl).1 1 rfl (by decide)⟩

/-- C10: an accepted agent message never changes the conversation's priority
(nor its id, customer, or subject — only `agent_id`, `status` and
`updated_at` are written), and the stored message row always carries
priority MEDIUM regardless of the message text: `send_agent_message` never
invokes the priority classifier. -/
theorem agent_message_frame_effect (db : DB) (cid sender : Nat)
    (content : String) (now : Nat) (conv : Conversation) (ag : Agent)
    (hconv : findConv db cid = some conv) (hag : findAgent db sender = some ag)
    (hok : conv.agent_id = none ∨ conv.agent_id = some sender) :
    ∃ r, send_agent_message db cid sender content now = Except.ok r
      ∧ r.message.priority = MessagePriority.MEDIUM
      ∧ r.conversation.priority = conv.priority
      ∧ r.conversation.id = conv.id
      ∧ r.conversation.customer_id = conv.customer_id
      ∧ r.conversation.subject = conv.subject
      ∧ ∀ c ∈ db.conversations, c.id ≠ cid → c ∈ r.db.conversations := by
  have hother : ownedByOther conv sender = false := by
    rcases hok with h | h <;> simp [ownedByOther, h]
  refine ⟨_, by simp [send_agent_message, hconv, hother, hag]; rfl, rfl, rfl, rfl, rfl, rfl, ?_⟩
  intro c hc hne
  exact mem_updateConv_other hc hne

/-- C10 witness: the statement at the fixture with the unowned OPEN
conversation and a message text full of urgent keywords, which is still
stored at MEDIUM and leaves the conversation priority at MEDIUM. -/
theorem agent_message_frame_effect_witness :
    ∃ r, send_agent_message dbUnowned 1 1 "this is an URGENT emergency" 9 = Except.ok r
      ∧ r.message.priority = MessagePriority.MEDIUM
      ∧ r.conversation.priority = convUnowned.priority
      ∧ r.conversation.id = convUnowned.id
      ∧ r.conversation.customer_id = convUnowned.customer_id
      ∧ r.conversation.subject = convUnowned.subject
      ∧ ∀ c ∈ dbUnowned.conversations, c.id ≠ 1 → c ∈ r.db.conversations :=
  agent_message_frame_effect dbUnowned 1 1 "this is an URGENT emergency" 9
    convUnowned agentAlice rfl rfl (Or.inl rfl)

/-- C2: an inbound customer message on an existing OPEN or IN_PROGRESS
conversation sets the conversation priority to the maximum of the current
and the classified level in the order LOW < MEDIUM < HIGH < URGENT; in
particular a classified level at or below the current one leaves the
priority unchanged. -/
theorem customer_message_priority_max (db : DB) (customerId : Nat)
    (content : String) (classified : MessagePriority) (now : Nat)
    (c : Conversation) (h : openConvsFor db customerId = [c]) :
    ∃ r, receive_external_message db customerId content classified now = Except.ok r
      ∧ priority_order r.conversation.priority
          = max (priority_order c.priority) (priority_order classified)
      ∧ (priority_order classified ≤ priority_order c.priority →
          r.conversation.priority = c.priority)
      ∧ r.conversation.id = c.id
      ∧ r.conversation ∈ r.db.conversations := by
  have hm : c ∈ db.conversations := openConvsFor_single_mem h
  unfold receive_external_message
  rw [h]
  refine ⟨_, rfl, ?_, ?_, rfl, ?_⟩
  · show priority_order (if priority_order c.priority < priority_order classified
        then classified else c.priority) = _
    by_cases hlt : priority_order c.priority < priority_order classified
    · rw [if_pos hlt]
      omega
    · rw [if_neg hlt]
      omega
  · intro hle
    show (if priority_order c.priority < priority_order classified
        then classified else c.priority) = c.priority
    rw [if_neg (Nat.not_lt.mpr hle)]
  · exact mem_updateConv hm rfl

/-- C2 witness: on the fixture with one OPEN conversation at MEDIUM, a
message classified HIGH escalates the conversation to
max(MEDIUM, HIGH) = HIGH. -/
theorem customer_message_priority_max_witness :
    ∃ r, receive_external_message dbOneOpen 7 "x" MessagePriority.HIGH 5 = Except.ok r
      ∧ priority_order r.conversation.priority
          = max (priority_order convOpenOne.priority) (priority_order MessagePriority.HIGH)
      ∧ (priority_order MessagePriority.HIGH ≤ priority_order convOpenOne.priority →
          r.conversation.priority = convOpenOne.priority)
      ∧ r.conversation.id = convOpenOne.id
      ∧ r.conversation ∈ r.db.conversations :=
  customer_message_priority_max dbOneOpen 7 "x" MessagePriority.HIGH 5 convOpenOne rfl

/-- C9: a non-JSON websocket frame is answered with an error event addressed
to the sender's own connection only, with the registry state untouched and
the loop continuing (the handler is a total function); a valid JSON frame
whose type value is not one of ping, typing, viewing, stop_viewing produces
no output at all — ignored, not an error; in both cases no other
connection receives anything and no state visible to other agents
changes. -/
theorem ws_frame_isolation (st : WsState) (conn : Nat) (agentId : Option Nat)
    (t : String) (ty : Option String) (cid? : Option Nat) (isTyping : Bool) :
    handle_frame st conn agentId (RawFrame.invalid t)
        = (st, [WsSend.personal conn (WsEvent.errorEvent "Invalid JSON format")])
    ∧ (ty ≠ some "ping" → ty ≠ some "typing" → ty ≠ some "viewing" →
        ty ≠ some "stop_viewing" →
        handle_frame st conn agentId (RawFrame.ctrl ty cid? isTyping) = (st, [])) := by
  refine ⟨rfl, ?_⟩
  intro h1 h2 h3 h4
  simp [handle_frame, h1, h2, h3, h4]

/-- C9 witness: the statement at a concrete empty registry, connection 3 of
agent 1, a malformed frame, and a frame with the unrecognized type value
"bogus". -/
theorem ws_frame_isolation_witness :
    handle_frame { viewing := [] } 3 (some 1) (RawFrame.invalid "oops")
        = ({ viewing := [] }, [WsSend.personal 3 (WsEvent.errorEvent "Invalid JSON format")])
    ∧ handle_frame { viewing := [] } 3 (some 1) (RawFrame.ctrl (some "bogus") (some 1) false)
        = ({ viewing := [] }, []) :=
  ⟨(ws_frame_isolation { viewing := [] } 3 (some 1) "oops" (some "bogus") (some 1) false).1,
   (ws_frame_isolation { viewing := [] } 3 (some 1) "oops" (some "bogus") (some 1) false).2
     (by decide) (by decide) (by decide) (by decide)⟩
